import Mathlib

/-!
Shallow embedding of the query-service lifecycle and request-admission layer
of `go/vt/vttablet/tabletserver/tabletserver.go`.

Conventions used throughout:
* Go methods that mutate the receiver become Lean functions from the server
  state to a (new state, result) pair.
* Fallible Go calls return `Except VtError _`.
* External collaborators (query engine, transaction engine, schema engine,
  heartbeat reader/writer, replication watcher, message engine, vstreamer,
  transaction throttler) are modelled at their interface: an open/closed flag
  per subsystem, with the fallibility of each `Open`/`Init` call captured by a
  boolean environment `Env`.
* Pure observability (trace spans, log lines, stats counters, the history
  ring) is elided; it does not affect any value returned to a caller.
-/

namespace VitessTabletServer

/-- The public RPC code taxonomy (`vtrpcpb.Code`). -/
inductive Code where
  | OK
  | CANCELED
  | UNKNOWN
  | INVALID_ARGUMENT
  | DEADLINE_EXCEEDED
  | NOT_FOUND
  | ALREADY_EXISTS
  | PERMISSION_DENIED
  | FAILED_PRECONDITION
  | RESOURCE_EXHAUSTED
  | ABORTED
  | UNIMPLEMENTED
  | INTERNAL
  | UNAVAILABLE
deriving DecidableEq, Repr

/-- A `vterrors` error: an RPC code plus a message. -/
structure VtError where
  code : Code
  message : String
deriving DecidableEq, Repr

/-- The `topodatapb.TabletType` (external proto enum). -/
inductive TabletType where
  | UNKNOWN
  | MASTER
  | REPLICA
  | RDONLY
  | BATCH
  | SPARE
  | EXPERIMENTAL
  | BACKUP
  | RESTORE
  | DRAINED
deriving DecidableEq, Repr

/-- The `String()` of a tablet type, as printed with `%v`. -/
def tabletTypeName : TabletType → String
  | .UNKNOWN => "UNKNOWN"
  | .MASTER => "MASTER"
  | .REPLICA => "REPLICA"
  | .RDONLY => "RDONLY"
  | .BATCH => "BATCH"
  | .SPARE => "SPARE"
  | .EXPERIMENTAL => "EXPERIMENTAL"
  | .BACKUP => "BACKUP"
  | .RESTORE => "RESTORE"
  | .DRAINED => "DRAINED"

/-- The `%v` rendering of a `[]topodatapb.TabletType` slice. -/
def tabletTypeListString (l : List TabletType) : String :=
  "[" ++ String.intercalate (" ") (l.map tabletTypeName) ++ "]"

/-- The serving states (`StateNotConnected = iota`, ...). -/
inductive ServingState where
  | StateNotConnected
  | StateNotServing
  | StateServing
  | StateTransitioning
  | StateShuttingDown
deriving DecidableEq, Repr

/-- Index of a state, matching the Go `iota` values 0..4. -/
def ServingState.idx : ServingState → Nat
  | .StateNotConnected => 0
  | .StateNotServing => 1
  | .StateServing => 2
  | .StateTransitioning => 3
  | .StateShuttingDown => 4

/-- The `stateName` array: names every state; names can overlap. -/
def stateNameList : List String :=
  ["NOT_SERVING", "NOT_SERVING", "SERVING", "NOT_SERVING", "SHUTTING_DOWN"]

/-- The `stateName[state]`. -/
def stateName (s : ServingState) : String :=
  stateNameList.getD (s.idx) ""

/-- The target tuple presented by a caller, `(keyspace, shard, tabletType)`. -/
structure Target where
  keyspace : String
  shard : String
  tabletType : TabletType
deriving DecidableEq, Repr

/-- The `ExecuteOptions_Workload` (external proto enum). -/
inductive Workload where
  | UNSPECIFIED
  | OLTP
  | OLAP
  | DBA
deriving DecidableEq, Repr

/-- The slice of `querypb.ExecuteOptions` consumed by this layer. -/
structure ExecuteOptions where
  workload : Workload
deriving DecidableEq, Repr

/-- Proto getter semantics: a nil `options` yields the zero workload. -/
def getWorkload : Option ExecuteOptions → Workload
  | none => .UNSPECIFIED
  | some o => o.workload

/-- The slice of a Go `context.Context` consumed by this layer:
whether `tabletenv.IsLocalContext` holds, an optional absolute deadline,
and the immediate caller id (if any). -/
structure Context where
  isLocal : Bool
  deadline : Option Nat
  immediateCallerID : Option String
deriving DecidableEq, Repr

/-- Open/closed view of the external transaction engine (`te`). -/
inductive TEState where
  | closed
  | initialized
  | acceptingReadWrite
  | acceptingReadOnly
deriving DecidableEq, Repr

/-- The `TabletServer` receiver state used by the embedded methods.
Subsystem fields are the interface-level open/closed view of the external
collaborators. `requests` is the waitgroup counter; `lameduck` the atomic
flag; `TerseErrors` and `QueryTimeout` the corresponding config fields. -/
structure TabletServer where
  state : ServingState
  target : Target
  alsoAllow : List TabletType
  requests : Nat
  lameduck : Bool
  TerseErrors : Bool
  QueryTimeout : Nat
  seOpen : Bool
  seNonMaster : Bool
  vstreamerOpen : Bool
  qeOpen : Bool
  qeServing : Bool
  txThrottlerOpen : Bool
  te : TEState
  messagerOpen : Bool
  trackerOpen : Bool
  hrOpen : Bool
  hwOpen : Bool
  watcherOpen : Bool
deriving DecidableEq, Repr

/-- The `GetState`: lameduck reports `NOT_SERVING`; otherwise `stateName[state]`. -/
def GetState (tsv : TabletServer) : String :=
  if tsv.lameduck then "NOT_SERVING" else stateName tsv.state

/-- The `setState` changes the state (the log line and history-ring record are
observability and elided). Caller holds the mutex. -/
def setState (tsv : TabletServer) (s : ServingState) : TabletServer :=
  { tsv with state := s }

/-- The `transition` obtains the lock and changes the state. -/
def transition (tsv : TabletServer) (s : ServingState) : TabletServer :=
  setState tsv s

/-- The `IsServing` returns true iff `GetState` yields `"SERVING"`. -/
def IsServing (tsv : TabletServer) : Bool :=
  GetState tsv == "SERVING"

/-- The `EnterLameduck` sets the lameduck flag. -/
def EnterLameduck (tsv : TabletServer) : TabletServer :=
  { tsv with lameduck := true }

/-- The `ExitLameduck` clears the lameduck flag. -/
def ExitLameduck (tsv : TabletServer) : TabletServer :=
  { tsv with lameduck := false }

/-- The `startRequest` validates the current state and target and registers the
request against the drain waitgroup. The two `goto verifyTarget` jumps in the
source collapse to the single disjunctive admission test; the `goto ok` jump
from the `alsoAllow` scan reaches the same `requests.Add(1)` as fall-through. -/
def startRequest (tsv : TabletServer) (ctx : Context) (target : Option Target)
    (allowOnShutdown : Bool) : Except VtError TabletServer :=
  if tsv.state = .StateServing ∨ (allowOnShutdown = true ∧ tsv.state = .StateShuttingDown) then
    match target with
    | some t =>
      if t.keyspace ≠ tsv.target.keyspace then
        .error ⟨.INVALID_ARGUMENT, "invalid keyspace " ++ t.keyspace⟩
      else if t.shard ≠ tsv.target.shard then
        .error ⟨.INVALID_ARGUMENT, "invalid shard " ++ t.shard⟩
      else if t.tabletType ≠ tsv.target.tabletType then
        if tsv.alsoAllow.contains t.tabletType then
          .ok { tsv with requests := tsv.requests + 1 }
        else
          .error ⟨.FAILED_PRECONDITION,
            "invalid tablet type: " ++ tabletTypeName t.tabletType ++ ", want: " ++
              tabletTypeName tsv.target.tabletType ++ " or " ++
              tabletTypeListString tsv.alsoAllow⟩
      else
        .ok { tsv with requests := tsv.requests + 1 }
    | none =>
      if ctx.isLocal then
        .ok { tsv with requests := tsv.requests + 1 }
      else
        .error ⟨.INVALID_ARGUMENT, "No target"⟩
  else
    .error ⟨.FAILED_PRECONDITION, "operation not allowed in state " ++ stateName tsv.state⟩

/-- The `endRequest` unregisters the request from the drain waitgroup. -/
def endRequest (tsv : TabletServer) : TabletServer :=
  { tsv with requests := tsv.requests - 1 }

/-- The `verifyTarget` performs the same target check as `startRequest` but
without consulting the serving state and without touching the waitgroup. -/
def verifyTarget (tsv : TabletServer) (ctx : Context) (target : Option Target) :
    Except VtError Unit :=
  match target with
  | some t =>
    if t.keyspace ≠ tsv.target.keyspace then
      .error ⟨.INVALID_ARGUMENT, "invalid keyspace " ++ t.keyspace⟩
    else if t.shard ≠ tsv.target.shard then
      .error ⟨.INVALID_ARGUMENT, "invalid shard " ++ t.shard⟩
    else if t.tabletType ≠ tsv.target.tabletType then
      if tsv.alsoAllow.contains t.tabletType then
        .ok ()
      else
        .error ⟨.FAILED_PRECONDITION,
          "invalid tablet type: " ++ tabletTypeName t.tabletType ++ ", want: " ++
            tabletTypeName tsv.target.tabletType ++ " or " ++
            tabletTypeListString tsv.alsoAllow⟩
    else
      .ok ()
  | none =>
    if ctx.isLocal then
      .ok ()
    else
      .error ⟨.INVALID_ARGUMENT, "No target"⟩

/-- The `action*` constants returned by `decideAction`. -/
inductive Action where
  | none
  | fullStart
  | serveNewType
  | gracefulStop
deriving DecidableEq, Repr

/-- The `decideAction` updates `alsoAllow` unconditionally, applies the
already-serving shortcut, records the new primary tablet type, and picks the
action for the current state. The receiver is returned together with the
result because the method mutates it even on the error path. -/
def decideAction (tsv : TabletServer) (tabletType : TabletType) (serving : Bool)
    (alsoAllow : List TabletType) : TabletServer × Except VtError Action :=
  let tsv := { tsv with alsoAllow := alsoAllow }
  if tsv.target.tabletType = tabletType ∧ serving = true ∧ tsv.state = .StateServing then
    (tsv, .ok .none)
  else
    let tsv := { tsv with target := { tsv.target with tabletType := tabletType } }
    match tsv.state with
    | .StateNotConnected =>
      if serving then (setState tsv .StateTransitioning, .ok .fullStart)
      else (tsv, .ok .none)
    | .StateNotServing =>
      if serving then (setState tsv .StateTransitioning, .ok .serveNewType)
      else (tsv, .ok .none)
    | .StateServing =>
      if !serving then (setState tsv .StateShuttingDown, .ok .gracefulStop)
      else (setState tsv .StateTransitioning, .ok .serveNewType)
    | .StateTransitioning =>
      (tsv, .error ⟨.FAILED_PRECONDITION,
        "cannot SetServingType, current state: " ++ stateName tsv.state⟩)
    | .StateShuttingDown =>
      (tsv, .error ⟨.FAILED_PRECONDITION,
        "cannot SetServingType, current state: " ++ stateName tsv.state⟩)

/-- Which fallible subsystem calls succeed in a given run: the initial db app
connection, `se.Open`, `qe.Open`, `txThrottler.Open`, `te.Init`, `hw.Open`.
All other subsystem calls in this layer return no error in the source. -/
structure Env where
  dbConnOk : Bool
  seOpenOk : Bool
  qeOpenOk : Bool
  txThrottlerOpenOk : Bool
  teInitOk : Bool
  hwOpenOk : Bool
deriving DecidableEq, Repr

/-- The `serveNewType`: role-dependent open/close of the collaborators, then a
transition to `StateServing`. Only `hw.Open` (master branch) can fail. -/
def serveNewType (env : Env) (tsv : TabletServer) : TabletServer × Except VtError Unit :=
  if tsv.target.tabletType = .MASTER then
    let tsv := { tsv with watcherOpen := false, hrOpen := false }
    if !env.hwOpenOk then
      (tsv, .error ⟨.UNKNOWN, "hw open failed"⟩)
    else
      let tsv := { tsv with hwOpen := true, trackerOpen := true,
                            te := .acceptingReadWrite, messagerOpen := true }
      (transition tsv .StateServing, .ok ())
  else
    let tsv := { tsv with messagerOpen := false, te := .acceptingReadOnly,
                          trackerOpen := false, hwOpen := false, seNonMaster := true,
                          hrOpen := true, watcherOpen := true }
    (transition tsv .StateServing, .ok ())

/-- The `fullStart`: probe the db connection, open the schema engine, vstreamer,
query engine, transaction throttler, init the transaction engine, then
delegate to `serveNewType`. Returns at the first failure. -/
def fullStart (env : Env) (tsv : TabletServer) : TabletServer × Except VtError Unit :=
  if !env.dbConnOk then
    (tsv, .error ⟨.UNKNOWN, "error creating db app connection"⟩)
  else if !env.seOpenOk then
    (tsv, .error ⟨.UNKNOWN, "se open failed"⟩)
  else
    let tsv := { tsv with seOpen := true }
    let tsv := { tsv with vstreamerOpen := true }
    if !env.qeOpenOk then
      (tsv, .error ⟨.UNKNOWN, "qe open failed"⟩)
    else
      let tsv := { tsv with qeOpen := true, qeServing := true }
      if !env.txThrottlerOpenOk then
        (tsv, .error ⟨.UNKNOWN, "txThrottler open failed"⟩)
      else
        let tsv := { tsv with txThrottlerOpen := true }
        if !env.teInitOk then
          (tsv, .error ⟨.UNKNOWN, "te init failed"⟩)
        else
          let tsv := { tsv with te := .initialized }
          serveNewType env tsv

/-- The `waitForShutdown` closes the messager, transaction engine, throttler and
tracker, stops the query engine from serving, and drains (`requests.Wait()`,
which does not change the sequential state). -/
def waitForShutdown (tsv : TabletServer) : TabletServer :=
  { tsv with messagerOpen := false, te := .closed, txThrottlerOpen := false,
             trackerOpen := false, qeServing := false }

/-- The `gracefulStop` drains and transitions to `StateNotServing`. The time-bomb
watchdog is real-time concurrency and is elided. -/
def gracefulStop (tsv : TabletServer) : TabletServer :=
  transition (waitForShutdown tsv) .StateNotServing

/-- The `closeAll` forcibly shuts down every subsystem and ends in
`StateNotConnected`. -/
def closeAll (tsv : TabletServer) : TabletServer :=
  transition
    { tsv with messagerOpen := false, te := .closed, txThrottlerOpen := false,
               qeServing := false, qeOpen := false, watcherOpen := false,
               trackerOpen := false, vstreamerOpen := false, hrOpen := false,
               hwOpen := false, seOpen := false }
    .StateNotConnected

/-- Specification-side predicate: every subsystem is closed. -/
def allSubsystemsClosed (tsv : TabletServer) : Bool :=
  !tsv.seOpen && !tsv.vstreamerOpen && !tsv.qeOpen && !tsv.qeServing &&
  !tsv.txThrottlerOpen && tsv.te == .closed && !tsv.messagerOpen &&
  !tsv.trackerOpen && !tsv.hrOpen && !tsv.hwOpen && !tsv.watcherOpen

/-- The `SetServingType` runs `decideAction`, executes the selected action with a
`closeAll` rollback on failure, and (via the deferred `ExitLameduck`) clears
the lameduck flag on every path. Returns `(receiver, stateChanged, err)`. -/
def SetServingType (env : Env) (tsv : TabletServer) (tabletType : TabletType)
    (serving : Bool) (alsoAllow : List TabletType) :
    TabletServer × Bool × Except VtError Unit :=
  let result : TabletServer × Bool × Except VtError Unit :=
    match decideAction tsv tabletType serving alsoAllow with
    | (tsv, .error e) => (tsv, false, .error e)
    | (tsv, .ok .none) => (tsv, false, .ok ())
    | (tsv, .ok .fullStart) =>
      match fullStart env tsv with
      | (tsv, .error e) => (closeAll tsv, true, .error e)
      | (tsv, .ok _) => (tsv, true, .ok ())
    | (tsv, .ok .serveNewType) =>
      match serveNewType env tsv with
      | (tsv, .error e) => (closeAll tsv, true, .error e)
      | (tsv, .ok _) => (tsv, true, .ok ())
    | (tsv, .ok .gracefulStop) => (gracefulStop tsv, true, .ok ())
  (ExitLameduck result.1, result.2.1, result.2.2)

/-- The `withTimeout` returns the context as-is (with a no-op cancel, modelled as
`false`) when the timeout is zero, the workload is `DBA`, or the context is
local; otherwise it attaches a deadline at `now + timeout` (real cancel,
modelled as `true`). -/
def withTimeout (now : Nat) (ctx : Context) (timeout : Nat)
    (options : Option ExecuteOptions) : Context × Bool :=
  if timeout = 0 ∨ getWorkload options = .DBA ∨ ctx.isLocal = true then
    (ctx, false)
  else
    ({ ctx with deadline := some (now + timeout) }, true)

/-!
Error classifier. The errno constants live in the external `mysql` package;
their numeric values below are the standard MySQL error numbers that package
defines (`ERVitessMaxRowsExceeded` is the vitess-specific 10001).
-/

def ERDiskFull : Nat := 1021
def ERFormNotFound : Nat := 1029
def ERKeyNotFound : Nat := 1032
def EROutOfMemory : Nat := 1037
def EROutOfSortMemory : Nat := 1038
def ERConCount : Nat := 1040
def EROutOfResources : Nat := 1041
def ERDBAccessDenied : Nat := 1044
def ERAccessDeniedError : Nat := 1045
def ERNoDb : Nat := 1046
def ERUnknownComError : Nat := 1047
def ERBadNullError : Nat := 1048
def ERBadDb : Nat := 1049
def ERTableExists : Nat := 1050
def ERBadTable : Nat := 1051
def ERNonUniq : Nat := 1052
def ERServerShutdown : Nat := 1053
def ERBadFieldError : Nat := 1054
def ERWrongFieldWithGroup : Nat := 1055
def ERWrongGroupField : Nat := 1056
def ERWrongSumSelect : Nat := 1057
def ERWrongValueCount : Nat := 1058
def ERTooLongIdent : Nat := 1059
def ERDupFieldName : Nat := 1060
def ERDupKeyName : Nat := 1061
def ERDupEntry : Nat := 1062
def ERWrongFieldSpec : Nat := 1063
def ERParseError : Nat := 1064
def EREmptyQuery : Nat := 1065
def ERNonUniqTable : Nat := 1066
def ERInvalidDefault : Nat := 1067
def ERMultiplePriKey : Nat := 1068
def ERTooManyKeys : Nat := 1069
def ERTooManyKeyParts : Nat := 1070
def ERTooLongKey : Nat := 1071
def ERKeyColumnDoesNotExist : Nat := 1072
def ERBlobUsedAsKey : Nat := 1073
def ERTooBigFieldLength : Nat := 1074
def ERWrongAutoKey : Nat := 1075
def ERGotSignal : Nat := 1078
def ERForcingClose : Nat := 1080
def ERNoSuchIndex : Nat := 1082
def ERWrongFieldTerminators : Nat := 1083
def ERBlobsAndNoTerminated : Nat := 1084
def ERTextFileNotReadable : Nat := 1085
def ERFileExists : Nat := 1086
def ERWrongSubKey : Nat := 1089
def ERCantRemoveAllFields : Nat := 1090
def ERCantDropFieldOrKey : Nat := 1091
def ERUpdateTableUsed : Nat := 1093
def ERNoSuchThread : Nat := 1094
def ERKillDenied : Nat := 1095
def ERNoTablesUsed : Nat := 1096
def ERTooBigSet : Nat := 1097
def ERTableNotLockedForWrite : Nat := 1099
def ERTableNotLocked : Nat := 1100
def ERBlobCantHaveDefault : Nat := 1101
def ERWrongDbName : Nat := 1102
def ERWrongTableName : Nat := 1103
def ERTooBigSelect : Nat := 1104
def ERUnknownProcedure : Nat := 1106
def ERWrongParamCountToProcedure : Nat := 1107
def ERWrongParametersToProcedure : Nat := 1108
def ERUnknownTable : Nat := 1109
def ERFieldSpecifiedTwice : Nat := 1110
def ERInvalidGroupFuncUse : Nat := 1111
def ERTableMustHaveColumns : Nat := 1113
def ERRecordFileFull : Nat := 1114
def ERUnknownCharacterSet : Nat := 1115
def ERTooManyTables : Nat := 1116
def ERTooManyFields : Nat := 1117
def ERTooBigRowSize : Nat := 1118
def ERWrongOuterJoin : Nat := 1120
def ERNullColumnInIndex : Nat := 1121
def ERCantFindUDF : Nat := 1122
def ERUDFExists : Nat := 1125
def ERFunctionNotDefined : Nat := 1128
def ERHostIsBlocked : Nat := 1129
def ERCantCreateThread : Nat := 1135
def ERWrongValueCountOnRow : Nat := 1136
def ERInvalidUseOfNull : Nat := 1138
def ERRegexpError : Nat := 1139
def ERMixOfGroupFuncAndFields : Nat := 1140
def ERNonExistingGrant : Nat := 1141
def ERIllegalGrantForTable : Nat := 1144
def ERNoSuchTable : Nat := 1146
def ERNonExistingTableGrant : Nat := 1147
def ERNotAllowedCommand : Nat := 1148
def ERSyntaxError : Nat := 1149
def ERTooManyDelayedThreads : Nat := 1151
def ERAbortingConnection : Nat := 1152
def ERNetPacketTooLarge : Nat := 1153
def ERTooLongString : Nat := 1162
def ERDelayedInsertTableLocked : Nat := 1165
def ERWrongColumnName : Nat := 1166
def ERWrongKeyColumn : Nat := 1167
def ERDupUnique : Nat := 1169
def ERBlobKeyWithoutLength : Nat := 1170
def ERPrimaryCantHaveNull : Nat := 1171
def ERTooManyRows : Nat := 1172
def ERRequiresPrimaryKey : Nat := 1173
def ERKeyDoesNotExist : Nat := 1176
def ERCantDoThisDuringAnTransaction : Nat := 1179
def ERUnknownSystemVariable : Nat := 1193
def ERTooManyUserConnections : Nat := 1203
def ERSetConstantsOnly : Nat := 1204
def ERLockWaitTimeout : Nat := 1205
def ERLockTableFull : Nat := 1206
def ERReadOnlyTransaction : Nat := 1207
def ERWrongArguments : Nat := 1210
def ERNoPermissionToCreateUsers : Nat := 1211
def ERLockDeadlock : Nat := 1213
def ERCannotAddForeign : Nat := 1215
def ERNoReferencedRow : Nat := 1216
def ERRowIsReferenced : Nat := 1217
def ERWrongUsage : Nat := 1221
def ERWrongNumberOfColumnsInSelect : Nat := 1222
def ERCantUpdateWithReadLock : Nat := 1223
def ERDupArgument : Nat := 1225
def ERUserLimitReached : Nat := 1226
def ERSpecifiedAccessDenied : Nat := 1227
def ERLocalVariable : Nat := 1228
def ERGlobalVariable : Nat := 1229
def ERNoDefault : Nat := 1230
def ERWrongValueForVar : Nat := 1231
def ERWrongTypeForVar : Nat := 1232
def ERVarCantBeRead : Nat := 1233
def ERCantUseOptionHere : Nat := 1234
def ERNotSupportedYet : Nat := 1235
def ERIncorrectGlobalLocalVar : Nat := 1238
def ERWrongFKDef : Nat := 1239
def ERKeyRefDoNotMatchTableRef : Nat := 1240
def EROperandColumns : Nat := 1241
def ERSubqueryNo1Row : Nat := 1242
def ERCyclicReference : Nat := 1245
def ERIllegalReference : Nat := 1247
def ERDerivedMustHaveAlias : Nat := 1248
def ERTableNameNotAllowedHere : Nat := 1250
def ERCollationCharsetMismatch : Nat := 1253
def ERWarnDataOutOfRange : Nat := 1264
def ERCantAggregate2Collations : Nat := 1267
def ERCantAggregate3Collations : Nat := 1270
def ERCantAggregateNCollations : Nat := 1271
def ERVariableIsNotStruct : Nat := 1272
def ERUnknownCollation : Nat := 1273
def ERWrongNameForIndex : Nat := 1280
def ERWrongNameForCatalog : Nat := 1281
def ERBadFTColumn : Nat := 1283
def ERNonUpdateableTable : Nat := 1288
def ERFeatureDisabled : Nat := 1289
def EROptionPreventsStatement : Nat := 1290
def ERDuplicatedValueInType : Nat := 1291
def ERTruncatedWrongValue : Nat := 1292
def ERTooMuchAutoTimestampCols : Nat := 1293
def ERInvalidOnUpdate : Nat := 1294
def ERUnknownTimeZone : Nat := 1298
def ERInvalidCharacterString : Nat := 1300
def ERTruncatedWrongValueForField : Nat := 1366
def ERDataTooLong : Nat := 1406
def ERRowIsReferenced2 : Nat := 1451
def ErNoReferencedRow2 : Nat := 1452
def ERDataOutOfRange : Nat := 1690
def CRServerGone : Nat := 2006
def CRServerLost : Nat := 2013
def ERVitessMaxRowsExceeded : Nat := 10001

/-- An error flowing into the classifier: either a `*mysql.SQLError`
(errno, sqlstate, message) or any other error carrying its `vterrors` code
(`UNKNOWN` when it has none). -/
inductive GoError where
  | sqlError (num : Nat) (sqlState : String) (message : String)
  | generic (message : String) (code : Code)
deriving DecidableEq, Repr

/-- The `(*mysql.SQLError).Error()`: `"<message> (errno <n>) (sqlstate <s>)"`. -/
def sqlErrorString (message : String) (num : Nat) (sqlState : String) : String :=
  message ++ " (errno " ++ toString num ++ ") (sqlstate " ++ sqlState ++ ")"

/-- The `strings.Contains` for a non-empty pattern. -/
def containsSubstr (s pat : String) : Bool :=
  (s.splitOn pat).length != 1

/-- Case list mapping to `RESOURCE_EXHAUSTED`. -/
def resourceExhaustedErrnos : List Nat :=
  [ERDiskFull, EROutOfMemory, EROutOfSortMemory, ERConCount, EROutOfResources,
   ERRecordFileFull, ERHostIsBlocked, ERCantCreateThread, ERTooManyDelayedThreads,
   ERNetPacketTooLarge, ERTooManyUserConnections, ERLockTableFull, ERUserLimitReached,
   ERVitessMaxRowsExceeded]

/-- Case list mapping to `NOT_FOUND`. -/
def notFoundErrnos : List Nat :=
  [ERFormNotFound, ERKeyNotFound, ERBadFieldError, ERNoSuchThread, ERUnknownTable,
   ERCantFindUDF, ERNonExistingGrant, ERNoSuchTable, ERNonExistingTableGrant,
   ERKeyDoesNotExist]

/-- Case list mapping to `PERMISSION_DENIED`. -/
def permissionDeniedErrnos : List Nat :=
  [ERDBAccessDenied, ERAccessDeniedError, ERKillDenied, ERNoPermissionToCreateUsers]

/-- Case list mapping to `FAILED_PRECONDITION`. -/
def failedPreconditionErrnos : List Nat :=
  [ERNoDb, ERNoSuchIndex, ERCantDropFieldOrKey, ERTableNotLockedForWrite,
   ERTableNotLocked, ERTooBigSelect, ERNotAllowedCommand, ERTooLongString,
   ERDelayedInsertTableLocked, ERDupUnique, ERRequiresPrimaryKey,
   ERCantDoThisDuringAnTransaction, ERReadOnlyTransaction, ERCannotAddForeign,
   ERNoReferencedRow, ERRowIsReferenced, ERCantUpdateWithReadLock, ERNoDefault,
   EROperandColumns, ERSubqueryNo1Row, ERNonUpdateableTable, ERFeatureDisabled,
   ERDuplicatedValueInType, ERRowIsReferenced2, ErNoReferencedRow2,
   ERWarnDataOutOfRange]

/-- Case list mapping to `ALREADY_EXISTS`. -/
def alreadyExistsErrnos : List Nat :=
  [ERTableExists, ERDupEntry, ERFileExists, ERUDFExists]

/-- Case list mapping to `ABORTED`. -/
def abortedErrnos : List Nat :=
  [ERGotSignal, ERForcingClose, ERAbortingConnection, ERLockDeadlock]

/-- Case list mapping to `INVALID_ARGUMENT`. -/
def invalidArgumentErrnos : List Nat :=
  [ERUnknownComError, ERBadNullError, ERBadDb, ERBadTable, ERNonUniq,
   ERWrongFieldWithGroup, ERWrongGroupField, ERWrongSumSelect, ERWrongValueCount,
   ERTooLongIdent, ERDupFieldName, ERDupKeyName, ERWrongFieldSpec, ERParseError,
   EREmptyQuery, ERNonUniqTable, ERInvalidDefault, ERMultiplePriKey, ERTooManyKeys,
   ERTooManyKeyParts, ERTooLongKey, ERKeyColumnDoesNotExist, ERBlobUsedAsKey,
   ERTooBigFieldLength, ERWrongAutoKey, ERWrongFieldTerminators,
   ERBlobsAndNoTerminated, ERTextFileNotReadable, ERWrongSubKey,
   ERCantRemoveAllFields, ERUpdateTableUsed, ERNoTablesUsed, ERTooBigSet,
   ERBlobCantHaveDefault, ERWrongDbName, ERWrongTableName, ERUnknownProcedure,
   ERWrongParamCountToProcedure, ERWrongParametersToProcedure,
   ERFieldSpecifiedTwice, ERInvalidGroupFuncUse, ERTableMustHaveColumns,
   ERUnknownCharacterSet, ERTooManyTables, ERTooManyFields, ERTooBigRowSize,
   ERWrongOuterJoin, ERNullColumnInIndex, ERFunctionNotDefined,
   ERWrongValueCountOnRow, ERInvalidUseOfNull, ERRegexpError,
   ERMixOfGroupFuncAndFields, ERIllegalGrantForTable, ERSyntaxError,
   ERWrongColumnName, ERWrongKeyColumn, ERBlobKeyWithoutLength,
   ERPrimaryCantHaveNull, ERTooManyRows, ERUnknownSystemVariable,
   ERSetConstantsOnly, ERWrongArguments, ERWrongUsage,
   ERWrongNumberOfColumnsInSelect, ERDupArgument, ERLocalVariable,
   ERGlobalVariable, ERWrongValueForVar, ERWrongTypeForVar, ERVarCantBeRead,
   ERCantUseOptionHere, ERIncorrectGlobalLocalVar, ERWrongFKDef,
   ERKeyRefDoNotMatchTableRef, ERCyclicReference, ERCollationCharsetMismatch,
   ERCantAggregate2Collations, ERCantAggregate3Collations,
   ERCantAggregateNCollations, ERVariableIsNotStruct, ERUnknownCollation,
   ERWrongNameForIndex, ERWrongNameForCatalog, ERBadFTColumn,
   ERTruncatedWrongValue, ERTooMuchAutoTimestampCols, ERInvalidOnUpdate,
   ERUnknownTimeZone, ERInvalidCharacterString, ERIllegalReference,
   ERDerivedMustHaveAlias, ERTableNameNotAllowedHere, ERDataTooLong,
   ERDataOutOfRange, ERTruncatedWrongValueForField]

/-- The `convertErrorCode`: for a non-SQL error, keep the upstream `vterrors`
code; for a `*mysql.SQLError` (whose upstream code is `UNKNOWN`), map the
errno through the case lists, with the `EROptionPreventsStatement`
"read-only" and `ERSpecifiedAccessDenied` "failover in progress"
special cases, defaulting to the upstream code. -/
def convertErrorCode (err : GoError) : Code :=
  match err with
  | .generic _ code => code
  | .sqlError errnum sqlState message =>
    let errCode := Code.UNKNOWN
    let errstr := sqlErrorString message errnum sqlState
    if errnum = ERNotSupportedYet then .UNIMPLEMENTED
    else if resourceExhaustedErrnos.contains errnum then .RESOURCE_EXHAUSTED
    else if errnum = ERLockWaitTimeout then .DEADLINE_EXCEEDED
    else if errnum = CRServerGone ∨ errnum = ERServerShutdown then .UNAVAILABLE
    else if notFoundErrnos.contains errnum then .NOT_FOUND
    else if permissionDeniedErrnos.contains errnum then .PERMISSION_DENIED
    else if failedPreconditionErrnos.contains errnum then .FAILED_PRECONDITION
    else if errnum = EROptionPreventsStatement then
      (if containsSubstr errstr ("read-only") then .FAILED_PRECONDITION else errCode)
    else if alreadyExistsErrnos.contains errnum then .ALREADY_EXISTS
    else if abortedErrnos.contains errnum then .ABORTED
    else if invalidArgumentErrnos.contains errnum then .INVALID_ARGUMENT
    else if errnum = ERSpecifiedAccessDenied then
      (if containsSubstr errstr ("failover in progress") then .FAILED_PRECONDITION
       else .PERMISSION_DENIED)
    else if errnum = CRServerLost then .CANCELED
    else errCode

/-- Go `%q` on a string (the escaping of special characters is elided). -/
def goQuote (s : String) : String :=
  "\"" ++ s ++ "\""

/-- Insertion into a ≤-sorted list of strings (`sort.Strings`). -/
def insertSorted (x : String) : List String → List String
  | [] => [x]
  | y :: ys => if x ≤ y then x :: y :: ys else y :: insertSorted x ys

/-- The `sort.Strings`. -/
def sortStrings (l : List String) : List String :=
  l.foldr insertSorted []

/-- The `queryAsString` rendering: the quoted sql followed by the bind
variable pairs with keys in sorted order and no separator between pairs. -/
def queryAsString (sql : String) (bindVariables : List (String × String)) : String :=
  let keys := sortStrings (bindVariables.map Prod.fst)
  let pairs := keys.foldl
    (fun acc key => acc ++ key ++ ": " ++ goQuote (Option.getD (bindVariables.lookup key) ""))
    ""
  "Sql: " ++ goQuote sql ++ ", BindVars: \x7b" ++ pairs ++ "\x7d"

/-- The `" (CallerID: <user>)"` when an immediate caller id is present. -/
def callerIDString (ctx : Context) : String :=
  match ctx.immediateCallerID with
  | some u => " (CallerID: " ++ u ++ ")"
  | none => ""

/-- Severity at which `convertAndLogError` logs (`nil` means suppressed). -/
inductive LogLevel where
  | errorLevel
  | throttledErrorLevel
  | warningLevel
  | infoLevel
deriving DecidableEq, Repr

/-- The severity demotion switch of `convertAndLogError`. -/
def logMethodForCode : Code → Option LogLevel
  | .FAILED_PRECONDITION => none
  | .ALREADY_EXISTS => none
  | .RESOURCE_EXHAUSTED => some .throttledErrorLevel
  | .ABORTED => some .warningLevel
  | .INVALID_ARGUMENT => some .infoLevel
  | .DEADLINE_EXCEEDED => some .infoLevel
  | _ => some .errorLevel

/-- The `convertAndLogError` returns the error handed back to the caller along
with the severity at which the full error is logged (the log text itself,
built with the external `sqlparser.TruncateForLog`, is elided). In terse mode
with bind variables and a code other than `FAILED_PRECONDITION`, the message
of a SQL error is reduced to
`(errno N) (sqlstate X)(callerID): <sql with binds stripped>`. -/
def convertAndLogError (tsv : TabletServer) (ctx : Context) (sql : String)
    (bindVariables : List (String × String)) (err : GoError) :
    VtError × Option LogLevel :=
  let errCode := convertErrorCode err
  let callerID := callerIDString ctx
  let logMethod := logMethodForCode errCode
  match err with
  | .sqlError errnum sqlState message =>
    if tsv.TerseErrors = true ∧ bindVariables ≠ [] ∧ errCode ≠ .FAILED_PRECONDITION then
      (⟨errCode, "(errno " ++ toString errnum ++ ") (sqlstate " ++ sqlState ++ ")" ++
          callerID ++ ": " ++ queryAsString sql []⟩, logMethod)
    else
      (⟨errCode, message ++ " (errno " ++ toString errnum ++ ") (sqlstate " ++
          sqlState ++ ")" ++ callerID ++ ": " ++ queryAsString sql bindVariables⟩,
       logMethod)
  | .generic message _ =>
    (⟨errCode, message ++ callerID⟩, logMethod)

/-- The `execRequest`: gate the call through `startRequest`, derive the per-call
context, run the body, normalize a body error through `convertAndLogError`,
and (deferred) `endRequest`. Trace span and log record are elided; the body
is the closure handed in by each RPC method. -/
def execRequest {ρ : Type} (now : Nat) (tsv : TabletServer) (ctx : Context)
    (timeout : Nat) (sql : String) (bindVariables : List (String × String))
    (target : Option Target) (options : Option ExecuteOptions)
    (allowOnShutdown : Bool) (exec : Context → Except GoError ρ) :
    TabletServer × Except VtError ρ :=
  match startRequest tsv ctx target allowOnShutdown with
  | .error e => (tsv, .error e)
  | .ok tsv1 =>
    let (ctx2, _cancel) := withTimeout now ctx timeout options
    let r := exec ctx2
    let tsv2 := endRequest tsv1
    match r with
    | .error e => (tsv2, .error (convertAndLogError tsv2 ctx sql bindVariables e).1)
    | .ok v => (tsv2, .ok v)

/-- The `Execute`: reject mismatched non-zero transaction and reserved ids as
`INTERNAL` before anything else; otherwise run the body (which resolves the
composite connection id and delegates to the external query engine, here the
parameter `qre`) under `execRequest` with `allowOnShutdown = (txID ≠ 0)`. -/
def Execute {ρ : Type}
    (qre : Context → String → List (String × String) → Int → Except GoError ρ)
    (now : Nat) (tsv : TabletServer) (ctx : Context) (target : Option Target)
    (sql : String) (bindVariables : List (String × String))
    (transactionID reservedID : Int) (options : Option ExecuteOptions) :
    TabletServer × Except VtError ρ :=
  if transactionID ≠ 0 ∧ reservedID ≠ 0 ∧ transactionID ≠ reservedID then
    (tsv, .error ⟨.INTERNAL, "transactionID and reserveID must match if both are non-zero"⟩)
  else
    let allowOnShutdown : Bool := transactionID != 0
    execRequest now tsv ctx tsv.QueryTimeout sql bindVariables target options
      allowOnShutdown
      (fun ctx2 =>
        let connID := if transactionID ≠ 0 then transactionID else reservedID
        qre ctx2 sql bindVariables connID)

/-- The `planbuilder.PlanID` (external enum; representative constructors). -/
inductive PlanID where
  | PlanPassSelect
  | PlanSelectLock
  | PlanNextval
  | PlanSelectImpossible
  | PlanInsertPK
  | PlanInsertSubquery
  | PlanPassDML
  | PlanDMLPK
  | PlanDMLSubquery
  | PlanUpdate
  | PlanUpdateLimit
  | PlanDelete
  | PlanDeleteLimit
  | PlanSet
  | PlanDDL
  | PlanSelectStream
  | PlanOtherRead
  | PlanOtherAdmin
  | PlanMessageStream
deriving DecidableEq, Repr

/-- A parsed where-clause; `generateQuery` is the external
`sqlparser.GenerateQuery` rendering with the bind variables of the call. -/
structure WhereClause where
  generateQuery : List (String × String) → Except VtError String

/-- The slice of a query plan consumed by `computeTxSerializerKey`
(`TableName().IsEmpty()` is `tableName = ""`). -/
structure Plan where
  planID : PlanID
  tableName : String
  whereClause : Option WhereClause

/-- The external query-engine interface used by `computeTxSerializerKey`:
`sqlparser.SplitMarginComments` and `qe.GetPlan`. -/
structure QueryEnv where
  splitMarginComments : String → String × String
  getPlan : String → Bool → Except VtError Plan

/-- The `computeTxSerializerKey`: strip trailing comments, get the plan, and
return `("<tableName><renderedWhereClause>", tableName)` only for
Update/UpdateLimit/Delete/DeleteLimit plans with a non-empty table name, a
where-clause, and a successful rendering; otherwise `("", "")`. -/
def computeTxSerializerKey (qenv : QueryEnv) (sql : String)
    (bindVariables : List (String × String)) : String × String :=
  let sql := (qenv.splitMarginComments sql).1
  match qenv.getPlan sql false with
  | .error _ => ("", "")
  | .ok plan =>
    match plan.planID with
    | .PlanUpdate | .PlanUpdateLimit | .PlanDelete | .PlanDeleteLimit =>
      if plan.tableName = "" then ("", "")
      else
        match plan.whereClause with
        | none => ("", "")
        | some wc =>
          match wc.generateQuery bindVariables with
          | .error _ => ("", "")
          | .ok whereStr => (plan.tableName ++ whereStr, plan.tableName)
    | _ => ("", "")

/-! Concrete fixtures used to instantiate the theorems below. -/

/-- A concrete node target. -/
def exampleTarget : Target :=
  { keyspace := "ks", shard := "-80", tabletType := .MASTER }

/-- A fully closed server at `StateNotConnected`. -/
def baseServer : TabletServer :=
  { state := .StateNotConnected, target := exampleTarget, alsoAllow := [],
    requests := 0, lameduck := false, TerseErrors := false, QueryTimeout := 30,
    seOpen := false, seNonMaster := false, vstreamerOpen := false,
    qeOpen := false, qeServing := false, txThrottlerOpen := false,
    te := .closed, messagerOpen := false, trackerOpen := false,
    hrOpen := false, hwOpen := false, watcherOpen := false }

/-- A serving server. -/
def servingServer : TabletServer :=
  { baseServer with
    state := .StateServing,
    seOpen := true,
    vstreamerOpen := true,
    qeOpen := true,
    qeServing := true,
    txThrottlerOpen := true,
    te := .acceptingReadWrite,
    messagerOpen := true,
    trackerOpen := true,
    hwOpen := true }

/-- An internally-originated context. -/
def ctxLocal : Context := { isLocal := true, deadline := none, immediateCallerID := none }

/-- A context from an external caller. -/
def ctxRemote : Context := { isLocal := false, deadline := none, immediateCallerID := none }

/-- An environment in which every subsystem call succeeds. -/
def envAllOk : Env :=
  { dbConnOk := true, seOpenOk := true, qeOpenOk := true,
    txThrottlerOpenOk := true, teInitOk := true, hwOpenOk := true }

/-- A server stuck in `StateTransitioning`, in lameduck mode. -/
def transServer : TabletServer :=
  { baseServer with state := .StateTransitioning, lameduck := true }

/-- A concrete update plan with a rendered where-clause. -/
def examplePlan : Plan :=
  { planID := .PlanUpdate, tableName := "t1",
    whereClause := some ⟨fun _ => .ok (" where id = 1")⟩ }

/-- A query environment that always yields `examplePlan`. -/
def exampleQueryEnv : QueryEnv :=
  { splitMarginComments := fun s => (s, ""),
    getPlan := fun _ _ => .ok examplePlan }

/-- Every successful `startRequest` happened in an admissible state and
incremented the drain counter by exactly one. -/
lemma startRequest_ok_shape (tsv : TabletServer) (ctx : Context)
    (target : Option Target) (allow : Bool) (tsv' : TabletServer)
    (h : startRequest tsv ctx target allow = .ok tsv') :
    (tsv.state = .StateServing ∨ (allow = true ∧ tsv.state = .StateShuttingDown)) ∧
    tsv' = { tsv with requests := tsv.requests + 1 } := by
  unfold startRequest at h
  split at h
  · rename_i hadm
    refine ⟨hadm, ?_⟩
    rcases target with _ | t
    · dsimp only at h
      split at h
      · exact (Except.ok.inj h).symm
      · exact Except.noConfusion h
    · dsimp only at h
      split at h
      · exact Except.noConfusion h
      · split at h
        · exact Except.noConfusion h
        · split at h
          · split at h
            · exact (Except.ok.inj h).symm
            · exact Except.noConfusion h
          · exact (Except.ok.inj h).symm
  · exact Except.noConfusion h

/-- In a non-admissible state, `startRequest` fails `FAILED_PRECONDITION`
with the name of the current state. -/
lemma startRequest_blocked (tsv : TabletServer) (ctx : Context)
    (target : Option Target) (allow : Bool)
    (h : ¬(tsv.state = .StateServing ∨ (allow = true ∧ tsv.state = .StateShuttingDown))) :
    startRequest tsv ctx target allow =
      .error ⟨.FAILED_PRECONDITION,
        "operation not allowed in state " ++ stateName tsv.state⟩ := by
  unfold startRequest
  rw [if_neg h]

/-- In an admissible state, `startRequest` is the target check of
`verifyTarget` followed by the drain-counter increment. -/
lemma startRequest_agrees_with_verifyTarget (tsv : TabletServer) (ctx : Context)
    (target : Option Target) (allow : Bool)
    (hadm : tsv.state = .StateServing ∨ (allow = true ∧ tsv.state = .StateShuttingDown)) :
    startRequest tsv ctx target allow =
      match verifyTarget tsv ctx target with
      | .ok _ => .ok { tsv with requests := tsv.requests + 1 }
      | .error e => .error e := by
  unfold startRequest verifyTarget
  rw [if_pos hadm]
  rcases target with _ | t
  · dsimp only
    split <;> rfl
  · dsimp only
    split_ifs <;> rfl

/-- C1: `startRequest` can succeed only when the state is `Serving`, or when
`allowOnShutdown` holds and the state is `ShuttingDown`; in every other state
it returns a `FAILED_PRECONDITION` error carrying the name of the current state,
and the drain counter is incremented exactly when the call succeeds. -/
theorem startRequest_admission_gate (tsv : TabletServer) (ctx : Context)
    (target : Option Target) (allowOnShutdown : Bool) :
    (∀ tsv', startRequest tsv ctx target allowOnShutdown = .ok tsv' →
      (tsv.state = .StateServing ∨
        (allowOnShutdown = true ∧ tsv.state = .StateShuttingDown)) ∧
      tsv'.requests = tsv.requests + 1) ∧
    (¬(tsv.state = .StateServing ∨
        (allowOnShutdown = true ∧ tsv.state = .StateShuttingDown)) →
      startRequest tsv ctx target allowOnShutdown =
        .error ⟨.FAILED_PRECONDITION,
          "operation not allowed in state " ++ stateName tsv.state⟩) := by
  constructor
  · intro tsv' h
    obtain ⟨hadm, hshape⟩ := startRequest_ok_shape tsv ctx target allowOnShutdown tsv' h
    exact ⟨hadm, by rw [hshape]⟩
  · exact startRequest_blocked tsv ctx target allowOnShutdown

/-- Witness for `startRequest_admission_gate`: a successful start from
`Serving` increments the counter; a start from `NotConnected` is refused even
with `allowOnShutdown`. -/
theorem startRequest_admission_gate_witness :
    (servingServer.state = .StateServing ∨
      (true = true ∧ servingServer.state = .StateShuttingDown)) ∧
    ({ servingServer with requests := 1 } : TabletServer).requests =
      servingServer.requests + 1 ∧
    startRequest baseServer ctxLocal none true =
      .error ⟨.FAILED_PRECONDITION,
        "operation not allowed in state " ++ stateName baseServer.state⟩ := by
  refine ⟨?_, ?_, ?_⟩
  · exact ((startRequest_admission_gate servingServer ctxLocal none true).1
      { servingServer with requests := 1 } rfl).1
  · exact ((startRequest_admission_gate servingServer ctxLocal none true).1
      { servingServer with requests := 1 } rfl).2
  · exact (startRequest_admission_gate baseServer ctxLocal none true).2 (by decide)

/-- C2: for a non-null caller target, the check (in `verifyTarget`, and in
`startRequest` whenever the state admits the call) returns
`INVALID_ARGUMENT` when keyspace or shard differ, `FAILED_PRECONDITION` when
they match but the tablet type is neither the primary type nor in `alsoAllow`, and
succeeds when they match and the type is the primary type or in `alsoAllow`; for a
null target the check succeeds iff the context is local, else
`INVALID_ARGUMENT: "No target"`. -/
theorem target_verification_rules (tsv : TabletServer) (ctx : Context) :
    (∀ t : Target,
      (t.keyspace ≠ tsv.target.keyspace ∨ t.shard ≠ tsv.target.shard) →
      ∃ e, verifyTarget tsv ctx (some t) = .error e ∧ e.code = .INVALID_ARGUMENT) ∧
    (∀ t : Target, t.keyspace = tsv.target.keyspace → t.shard = tsv.target.shard →
      t.tabletType ≠ tsv.target.tabletType →
      tsv.alsoAllow.contains t.tabletType = false →
      verifyTarget tsv ctx (some t) =
        .error ⟨.FAILED_PRECONDITION,
          "invalid tablet type: " ++ tabletTypeName t.tabletType ++ ", want: " ++
            tabletTypeName tsv.target.tabletType ++ " or " ++
            tabletTypeListString tsv.alsoAllow⟩) ∧
    (∀ t : Target, t.keyspace = tsv.target.keyspace → t.shard = tsv.target.shard →
      (t.tabletType = tsv.target.tabletType ∨
        tsv.alsoAllow.contains t.tabletType = true) →
      verifyTarget tsv ctx (some t) = .ok ()) ∧
    (verifyTarget tsv ctx none =
      if ctx.isLocal then .ok () else .error ⟨.INVALID_ARGUMENT, "No target"⟩) ∧
    (∀ (allow : Bool) (target : Option Target),
      (tsv.state = .StateServing ∨ (allow = true ∧ tsv.state = .StateShuttingDown)) →
      startRequest tsv ctx target allow =
        match verifyTarget tsv ctx target with
        | .ok _ => .ok { tsv with requests := tsv.requests + 1 }
        | .error e => .error e) := by
  refine ⟨?_, ?_, ?_, ?_, ?_⟩
  · intro t h
    unfold verifyTarget
    dsimp only
    by_cases hk : t.keyspace = tsv.target.keyspace
    · rcases h with h | h
      · exact absurd hk h
      · rw [if_neg (not_not_intro hk), if_pos h]
        exact ⟨_, rfl, rfl⟩
    · rw [if_pos hk]
      exact ⟨_, rfl, rfl⟩
  · intro t hk hs ht hc
    unfold verifyTarget
    dsimp only
    rw [if_neg (not_not_intro hk), if_neg (not_not_intro hs), if_pos ht,
      if_neg (by simpa using hc)]
  · intro t hk hs h
    unfold verifyTarget
    dsimp only
    split_ifs with h1 h2 h3 h4 <;> simp_all
  · rfl
  · exact fun allow target hadm =>
      startRequest_agrees_with_verifyTarget tsv ctx target allow hadm

/-- Witness for `target_verification_rules`: a wrong tablet type is refused
as `FAILED_PRECONDITION`, the matching target passes, and a gated
`startRequest` from `Serving` admits the matching target. -/
theorem target_verification_rules_witness :
    verifyTarget servingServer ctxRemote
        (some { exampleTarget with tabletType := .REPLICA }) =
      .error ⟨.FAILED_PRECONDITION,
        "invalid tablet type: " ++ tabletTypeName .REPLICA ++ ", want: " ++
          tabletTypeName servingServer.target.tabletType ++ " or " ++
          tabletTypeListString servingServer.alsoAllow⟩ ∧
    verifyTarget servingServer ctxRemote (some exampleTarget) = .ok () ∧
    startRequest servingServer ctxRemote (some exampleTarget) false =
      .ok { servingServer with requests := servingServer.requests + 1 } := by
  have hok := (target_verification_rules servingServer ctxRemote).2.2.1
    exampleTarget rfl rfl (Or.inl rfl)
  have hgate := (target_verification_rules servingServer ctxRemote).2.2.2.2
    false (some exampleTarget) (Or.inl rfl)
  refine ⟨?_, hok, ?_⟩
  · exact (target_verification_rules servingServer ctxRemote).2.1
      { exampleTarget with tabletType := .REPLICA } rfl rfl (by decide) (by decide)
  · rw [hgate, hok]

/-- C3: `decideAction(desiredType, desiredServing, alsoAllow)` selects actions
exactly per the transition table: from `NotConnected`, `FullStart` iff serving
is desired, otherwise none; from `NotServing`, `ServeNewType` iff serving,
otherwise none; from `Serving`, `GracefulStop` when serving is false, none
when the tablet type matches (shortcut), `ServeNewType` otherwise; and from
`Transitioning` or `ShuttingDown` it fails `FAILED_PRECONDITION` for every
input. -/
theorem decideAction_transition_table (tsv : TabletServer) (tt : TabletType)
    (serving : Bool) (aa : List TabletType) :
    (decideAction tsv tt serving aa).2 =
      match tsv.state with
      | .StateNotConnected => .ok (if serving then .fullStart else .none)
      | .StateNotServing => .ok (if serving then .serveNewType else .none)
      | .StateServing =>
          .ok (if serving = false then .gracefulStop
               else if tsv.target.tabletType = tt then .none else .serveNewType)
      | .StateTransitioning =>
          .error ⟨.FAILED_PRECONDITION,
            "cannot SetServingType, current state: " ++ stateName .StateTransitioning⟩
      | .StateShuttingDown =>
          .error ⟨.FAILED_PRECONDITION,
            "cannot SetServingType, current state: " ++ stateName .StateShuttingDown⟩ := by
  unfold decideAction
  cases hstate : tsv.state <;> by_cases hmt : tsv.target.tabletType = tt <;>
    cases serving <;> simp [hstate, hmt, setState]

/-- C5: every `Execute` call with `transactionID ≠ 0`, `reservedID ≠ 0` and
`transactionID ≠ reservedID` returns an `INTERNAL` error (and no result)
without performing the request: the guard fires for every engine `qre` and
leaves the server untouched. -/
theorem execute_rejects_mismatched_ids {ρ : Type}
    (qre : Context → String → List (String × String) → Int → Except GoError ρ)
    (now : Nat) (tsv : TabletServer) (ctx : Context) (target : Option Target)
    (sql : String) (bv : List (String × String)) (transactionID reservedID : Int)
    (options : Option ExecuteOptions)
    (h1 : transactionID ≠ 0) (h2 : reservedID ≠ 0) (h3 : transactionID ≠ reservedID) :
    Execute qre now tsv ctx target sql bv transactionID reservedID options =
      (tsv, .error ⟨.INTERNAL,
        "transactionID and reserveID must match if both are non-zero"⟩) := by
  unfold Execute
  rw [if_pos ⟨h1, h2, h3⟩]

/-- Witness for `execute_rejects_mismatched_ids` at a concrete input. -/
theorem execute_rejects_mismatched_ids_witness :
    Execute (ρ := Unit) (fun _ _ _ _ => .ok ()) 0 servingServer ctxRemote
        (some exampleTarget) "update t set a = 1" [] 7 9 none =
      (servingServer, .error ⟨.INTERNAL,
        "transactionID and reserveID must match if both are non-zero"⟩) :=
  execute_rejects_mismatched_ids (fun _ _ _ _ => .ok ()) 0 servingServer ctxRemote
    (some exampleTarget) "update t set a = 1" [] 7 9 none
    (by decide) (by decide) (by decide)

/-- C8: `withTimeout` returns the original context with no deadline attached
iff the timeout is zero, the execute-options workload is `DBA`, or the
context is local; in every other case it attaches a deadline at
`now + timeout`. -/
theorem withTimeout_spec (now : Nat) (ctx : Context) (timeout : Nat)
    (options : Option ExecuteOptions) :
    ((withTimeout now ctx timeout options).2 = false ↔
      (timeout = 0 ∨ getWorkload options = .DBA ∨ ctx.isLocal = true)) ∧
    ((timeout = 0 ∨ getWorkload options = .DBA ∨ ctx.isLocal = true) →
      (withTimeout now ctx timeout options).1 = ctx) ∧
    (¬(timeout = 0 ∨ getWorkload options = .DBA ∨ ctx.isLocal = true) →
      (withTimeout now ctx timeout options).1 =
        { ctx with deadline := some (now + timeout) }) := by
  unfold withTimeout
  by_cases h : timeout = 0 ∨ getWorkload options = .DBA ∨ ctx.isLocal = true
  · rw [if_pos h]
    exact ⟨by simpa using h, fun _ => rfl, fun hn => absurd h hn⟩
  · rw [if_neg h]
    exact ⟨by simpa using h, fun hc => absurd hc h, fun _ => rfl⟩

/-- Witness for `withTimeout_spec` at concrete inputs: a local context passes
through unchanged; a remote OLTP call gets a deadline. -/
theorem withTimeout_spec_witness :
    (withTimeout 5 ctxLocal 10 none).1 = ctxLocal ∧
    (withTimeout 5 ctxRemote 10 none).1 = { ctxRemote with deadline := some 15 } :=
  ⟨(withTimeout_spec 5 ctxLocal 10 none).2.1 (by decide),
   (withTimeout_spec 5 ctxRemote 10 none).2.2 (by decide)⟩

/-- C10: the state-name table maps `NotConnected`, `NotServing` and
`Transitioning` all to the identical string `"NOT_SERVING"`, while only
`Serving` and `ShuttingDown` have distinct names; consequently `GetState`
and the `FAILED_PRECONDITION` error of `startRequest` cannot distinguish the
three collided states. -/
theorem stateName_collision :
    stateName .StateNotConnected = "NOT_SERVING" ∧
    stateName .StateNotServing = "NOT_SERVING" ∧
    stateName .StateTransitioning = "NOT_SERVING" ∧
    stateName .StateServing = "SERVING" ∧
    stateName .StateShuttingDown = "SHUTTING_DOWN" ∧
    (∀ tsv : TabletServer, ∀ s₁ s₂ : ServingState,
      (s₁ = .StateNotConnected ∨ s₁ = .StateNotServing ∨ s₁ = .StateTransitioning) →
      (s₂ = .StateNotConnected ∨ s₂ = .StateNotServing ∨ s₂ = .StateTransitioning) →
      GetState { tsv with state := s₁ } = GetState { tsv with state := s₂ } ∧
      ∀ (ctx : Context) (target : Option Target) (allow : Bool),
        startRequest { tsv with state := s₁ } ctx target allow =
          startRequest { tsv with state := s₂ } ctx target allow) := by
  refine ⟨rfl, rfl, rfl, rfl, rfl, ?_⟩
  intro tsv s₁ s₂ h₁ h₂
  constructor
  · rcases h₁ with h | h | h <;> rcases h₂ with h' | h' | h' <;> subst h <;> subst h' <;> rfl
  · intro ctx target allow
    rcases h₁ with h | h | h <;> rcases h₂ with h' | h' | h' <;> subst h <;> subst h' <;>
      cases allow <;> rfl

/-- Witness for `stateName_collision`: `NotConnected` and `Transitioning` are
indistinguishable through `GetState` and through the error of `startRequest`. -/
theorem stateName_collision_witness :
    GetState { baseServer with state := .StateNotConnected } =
      GetState { baseServer with state := .StateTransitioning } ∧
    startRequest { baseServer with state := .StateNotConnected } ctxRemote
        (some exampleTarget) false =
      startRequest { baseServer with state := .StateTransitioning } ctxRemote
        (some exampleTarget) false :=
  let h := stateName_collision.2.2.2.2.2 baseServer .StateNotConnected
    .StateTransitioning (Or.inl rfl) (Or.inr (Or.inr rfl))
  ⟨h.1, h.2 ctxRemote (some exampleTarget) false⟩

/-- When the state is `Transitioning` or `ShuttingDown`, `decideAction`
errors `FAILED_PRECONDITION` but has already overwritten `alsoAllow` and the
primary tablet type. -/
lemma decideAction_blocked (tsv : TabletServer) (tt : TabletType) (serving : Bool)
    (aa : List TabletType)
    (h : tsv.state = .StateTransitioning ∨ tsv.state = .StateShuttingDown) :
    decideAction tsv tt serving aa =
      ({ tsv with alsoAllow := aa, target := { tsv.target with tabletType := tt } },
       .error ⟨.FAILED_PRECONDITION,
         "cannot SetServingType, current state: " ++ stateName tsv.state⟩) := by
  unfold decideAction
  rcases h with h | h <;>
  · rw [if_neg (by simp [h])]
    simp [h]

/-- C9: a `SetServingType` call blocked by `Transitioning`/`ShuttingDown` is
not side-effect-free: it returns `FAILED_PRECONDITION` with `stateChanged =
false`, yet the stored `alsoAllow` list and primary target tablet type have
been overwritten with the requested values, the lameduck flag has been
cleared by the deferred `ExitLameduck`, and the state itself is unchanged. -/
theorem setServingType_blocked_still_mutates (env : Env) (tsv : TabletServer)
    (tt : TabletType) (serving : Bool) (aa : List TabletType)
    (h : tsv.state = .StateTransitioning ∨ tsv.state = .StateShuttingDown) :
    (SetServingType env tsv tt serving aa).2.2 =
      .error ⟨.FAILED_PRECONDITION,
        "cannot SetServingType, current state: " ++ stateName tsv.state⟩ ∧
    (SetServingType env tsv tt serving aa).2.1 = false ∧
    (SetServingType env tsv tt serving aa).1.alsoAllow = aa ∧
    (SetServingType env tsv tt serving aa).1.target.tabletType = tt ∧
    (SetServingType env tsv tt serving aa).1.lameduck = false ∧
    (SetServingType env tsv tt serving aa).1.state = tsv.state := by
  unfold SetServingType
  rw [decideAction_blocked tsv tt serving aa h]
  exact ⟨rfl, rfl, rfl, rfl, rfl, rfl⟩

/-- Witness for `setServingType_blocked_still_mutates`: a blocked call on a
lameducked transitioning server still rewrites `alsoAllow`, the tablet type
and the lameduck flag. -/
theorem setServingType_blocked_still_mutates_witness :
    (SetServingType envAllOk transServer .REPLICA true [.BATCH]).2.2 =
      .error ⟨.FAILED_PRECONDITION,
        "cannot SetServingType, current state: " ++ stateName transServer.state⟩ ∧
    (SetServingType envAllOk transServer .REPLICA true [.BATCH]).1.alsoAllow =
      [.BATCH] ∧
    (SetServingType envAllOk transServer .REPLICA true [.BATCH]).1.target.tabletType =
      .REPLICA ∧
    (SetServingType envAllOk transServer .REPLICA true [.BATCH]).1.lameduck = false := by
  have h := setServingType_blocked_still_mutates envAllOk transServer .REPLICA true
    [.BATCH] (Or.inl rfl)
  exact ⟨h.1, h.2.2.1, h.2.2.2.1, h.2.2.2.2.1⟩

/-- From `NotConnected` with serving desired, `decideAction` parks the state
in `Transitioning` and selects `FullStart`. -/
lemma decideAction_notConnected_serving (tsv : TabletServer) (tt : TabletType)
    (aa : List TabletType) (h : tsv.state = .StateNotConnected) :
    decideAction tsv tt true aa =
      ({ tsv with alsoAllow := aa,
                  target := { tsv.target with tabletType := tt },
                  state := .StateTransitioning }, .ok .fullStart) := by
  unfold decideAction setState
  rw [if_neg (by simp [h])]
  simp [h]

/-- After the `closeAll` rollback (and the deferred `ExitLameduck`), every
subsystem is closed and the state is `NotConnected`. -/
lemma closeAll_closed (tsv : TabletServer) :
    allSubsystemsClosed (ExitLameduck (closeAll tsv)) = true ∧
    (ExitLameduck (closeAll tsv)).state = .StateNotConnected :=
  ⟨rfl, rfl⟩

/-- When `decideAction` selected `FullStart` and the action then failed,
`SetServingType` hands back the `closeAll` rollback of the failed
`fullStart` state, with `stateChanged = true`. -/
lemma setServingType_fullStart_rollback (env : Env) (tsv : TabletServer)
    (tt : TabletType) (serving : Bool) (aa : List TabletType)
    (tsv1 : TabletServer)
    (hda : decideAction tsv tt serving aa = (tsv1, .ok .fullStart))
    (e : VtError)
    (hfail : (SetServingType env tsv tt serving aa).2.2 = .error e) :
    (SetServingType env tsv tt serving aa).1 =
      ExitLameduck (closeAll (fullStart env tsv1).1) ∧
    (SetServingType env tsv tt serving aa).2.1 = true := by
  unfold SetServingType at hfail ⊢
  rw [hda] at hfail ⊢
  dsimp only at hfail ⊢
  rcases hfs : fullStart env tsv1 with ⟨tsv2, r2⟩
  rw [hfs] at hfail
  cases r2
  · exact ⟨rfl, rfl⟩
  · simp at hfail

/-- C4: if any step of `fullStart` (including the delegated `serveNewType`)
fails, `SetServingType` invokes `closeAll`: every subsystem ends closed and
the final state of the node is `NotConnected` (with the error reported and
`stateChanged = true`). -/
theorem fullStart_failure_closes_all (env : Env) (tsv : TabletServer)
    (tt : TabletType) (aa : List TabletType)
    (hstate : tsv.state = .StateNotConnected) (e : VtError)
    (hfail : (SetServingType env tsv tt true aa).2.2 = .error e) :
    allSubsystemsClosed (SetServingType env tsv tt true aa).1 = true ∧
    (SetServingType env tsv tt true aa).1.state = .StateNotConnected ∧
    (SetServingType env tsv tt true aa).2.1 = true := by
  obtain ⟨h1, h2⟩ := setServingType_fullStart_rollback env tsv tt true aa _
    (decideAction_notConnected_serving tsv tt aa hstate) e hfail
  rw [h1]
  exact ⟨(closeAll_closed _).1, (closeAll_closed _).2, h2⟩

/-- Witness for `fullStart_failure_closes_all`: a cold start whose query
engine fails to open rolls everything back to `NotConnected`. -/
theorem fullStart_failure_closes_all_witness :
    allSubsystemsClosed
      (SetServingType { envAllOk with qeOpenOk := false } baseServer .MASTER true
        []).1 = true ∧
    (SetServingType { envAllOk with qeOpenOk := false } baseServer .MASTER true
      []).1.state = .StateNotConnected ∧
    (SetServingType { envAllOk with qeOpenOk := false } baseServer .MASTER true
      []).2.1 = true :=
  fullStart_failure_closes_all { envAllOk with qeOpenOk := false } baseServer
    .MASTER [] (by decide) ⟨.UNKNOWN, "qe open failed"⟩ rfl

/-- C6: with terse mode on, at least one bind variable, and a classified code
other than `FAILED_PRECONDITION`, the error returned for a SQL error is
reduced to `(errno N) (sqlstate X)(callerID): <sql with binds stripped>`;
in particular it is identical for any two calls differing only in their bind
variables. -/
theorem terse_mode_redacts_bind_values (tsv : TabletServer) (ctx : Context)
    (sql : String) (bv : List (String × String)) (errnum : Nat)
    (sqlState msg : String)
    (hterse : tsv.TerseErrors = true) (hbv : bv ≠ [])
    (hcode : convertErrorCode (.sqlError errnum sqlState msg) ≠ .FAILED_PRECONDITION) :
    (convertAndLogError tsv ctx sql bv (.sqlError errnum sqlState msg)).1 =
      ⟨convertErrorCode (.sqlError errnum sqlState msg),
        "(errno " ++ toString errnum ++ ") (sqlstate " ++ sqlState ++ ")" ++
          callerIDString ctx ++ ": " ++ queryAsString sql []⟩ ∧
    (∀ bv' : List (String × String), bv' ≠ [] →
      (convertAndLogError tsv ctx sql bv (.sqlError errnum sqlState msg)).1 =
        (convertAndLogError tsv ctx sql bv' (.sqlError errnum sqlState msg)).1) := by
  have key : ∀ l : List (String × String), l ≠ [] →
      (convertAndLogError tsv ctx sql l (.sqlError errnum sqlState msg)).1 =
        ⟨convertErrorCode (.sqlError errnum sqlState msg),
          "(errno " ++ toString errnum ++ ") (sqlstate " ++ sqlState ++ ")" ++
            callerIDString ctx ++ ": " ++ queryAsString sql []⟩ := by
    intro l hl
    unfold convertAndLogError
    dsimp only
    rw [if_pos ⟨hterse, hl, hcode⟩]
  exact ⟨key bv hbv, fun bv' hbv' => (key bv hbv).trans (key bv' hbv').symm⟩

/-- Witness for `terse_mode_redacts_bind_values`: a duplicate-entry SQL error
with one bind variable comes back without the MySQL message or the bind
value. -/
theorem terse_mode_redacts_bind_values_witness :
    (convertAndLogError { servingServer with TerseErrors := true } ctxRemote
        ("insert into t values (:a)") [("a", "42")]
        (.sqlError 1062 "23000" "Duplicate entry 42 for key PRIMARY")).1 =
      ⟨convertErrorCode (.sqlError 1062 "23000" "Duplicate entry 42 for key PRIMARY"),
        "(errno " ++ toString 1062 ++ ") (sqlstate " ++ "23000" ++ ")" ++
          callerIDString ctxRemote ++ ": " ++
          queryAsString ("insert into t values (:a)") []⟩ :=
  (terse_mode_redacts_bind_values { servingServer with TerseErrors := true }
    ctxRemote ("insert into t values (:a)") [("a", "42")] 1062 "23000"
    "Duplicate entry 42 for key PRIMARY" rfl (by decide) (by decide)).1

/-- C7: `computeTxSerializerKey` yields `("<tableName><renderedWhere>",
tableName)` exactly when the plan resolves to an Update/UpdateLimit/Delete/
DeleteLimit kind, the table name is non-empty, a where-clause exists and it
renders with the bind variables of the call; in every other case it yields the
empty key (disabling serialization). -/
theorem computeTxSerializerKey_spec (qenv : QueryEnv) (sql : String)
    (bv : List (String × String)) :
    (∀ (plan : Plan) (wc : WhereClause) (wstr : String),
      qenv.getPlan (qenv.splitMarginComments sql).1 false = .ok plan →
      (plan.planID = .PlanUpdate ∨ plan.planID = .PlanUpdateLimit ∨
        plan.planID = .PlanDelete ∨ plan.planID = .PlanDeleteLimit) →
      plan.tableName ≠ "" →
      plan.whereClause = some wc →
      wc.generateQuery bv = .ok wstr →
      computeTxSerializerKey qenv sql bv = (plan.tableName ++ wstr, plan.tableName)) ∧
    ((¬ ∃ (plan : Plan) (wc : WhereClause) (wstr : String),
        qenv.getPlan (qenv.splitMarginComments sql).1 false = .ok plan ∧
        (plan.planID = .PlanUpdate ∨ plan.planID = .PlanUpdateLimit ∨
          plan.planID = .PlanDelete ∨ plan.planID = .PlanDeleteLimit) ∧
        plan.tableName ≠ "" ∧ plan.whereClause = some wc ∧
        wc.generateQuery bv = .ok wstr) →
      computeTxSerializerKey qenv sql bv = ("", "")) := by
  constructor
  · intro plan wc wstr hplan hkind htable hwc hrender
    unfold computeTxSerializerKey
    dsimp only
    rw [hplan]
    dsimp only
    rcases hkind with hk | hk | hk | hk <;>
      (rw [hk]; dsimp only; rw [if_neg htable, hwc]; dsimp only; rw [hrender])
  · intro hno
    unfold computeTxSerializerKey
    dsimp only
    rcases hg : qenv.getPlan (qenv.splitMarginComments sql).1 false with e | plan
    · rfl
    · dsimp only
      cases hp : plan.planID <;> dsimp only <;> try rfl
      all_goals (
        by_cases ht : plan.tableName = ""
        · rw [if_pos ht]
        · rw [if_neg ht]
          rcases hw : plan.whereClause with _ | wc
          · rfl
          · dsimp only
            rcases hr : wc.generateQuery bv with e' | wstr
            · rfl
            · exact absurd ⟨plan, wc, wstr, hg, by simp [hp], ht, hw, hr⟩ hno)

/-- Witness for `computeTxSerializerKey_spec`: a concrete update plan
produces the concatenated key. -/
theorem computeTxSerializerKey_spec_witness :
    computeTxSerializerKey exampleQueryEnv ("update t1 set a = 1 where id = 1") [] =
      (examplePlan.tableName ++ " where id = 1", examplePlan.tableName) :=
  (computeTxSerializerKey_spec exampleQueryEnv ("update t1 set a = 1 where id = 1")
    []).1 examplePlan ⟨fun _ => .ok (" where id = 1")⟩ (" where id = 1") rfl
    (Or.inl rfl) (by decide) rfl rfl

end VitessTabletServer
